import Mathlib

/-!
Shallow embedding of the pokemon-seeker single-page component
(`src/app/page.tsx`): its data model, the two fetch routines, the search
handler and the rendering transforms, together with theorems settling the
specification claims about them.

The network is modelled explicitly: a fetch routine receives the server's
response (or the per-url response function) as an argument, and the
JavaScript promise machinery becomes plain sequencing.  React state updates
(`setX`) become functional record updates on a `ViewState` record.
-/

namespace PokemonSeeker

/-! ## Data model (the `Pokemon` type of `page.tsx`, lines 7-30) -/

/-- Reference carrying only a `name` field, as in `{ type: { name } }` and
`{ ability: { name } }` of the source's `Pokemon` type. -/
structure NamedRef where
  name : String
  deriving DecidableEq

/-- One entry of `Pokemon.types` (`{ type: { name: string } }`). -/
structure TypeSlot where
  type : NamedRef
  deriving DecidableEq

/-- One entry of `Pokemon.abilities` (`{ ability: { name: string } }`). -/
structure AbilitySlot where
  ability : NamedRef
  deriving DecidableEq

/-- The `sprites.other['official-artwork']` object. -/
structure OfficialArtwork where
  front_default : String
  deriving DecidableEq

/-- The `sprites.other` object; the hyphenated JSON key `official-artwork`
is rendered as `official_artwork`. -/
structure SpritesOther where
  official_artwork : OfficialArtwork
  deriving DecidableEq

/-- The `sprites` object of a creature record. -/
structure Sprites where
  other : SpritesOther
  front_default : String
  deriving DecidableEq

/-- The normalized creature record (`type Pokemon`, lines 7-30 of
`page.tsx`).  `height` and `weight` are the raw decimetre/hectogram
integers of the remote source. -/
structure Pokemon where
  id : Nat
  name : String
  types : List TypeSlot
  height : Nat
  weight : Nat
  abilities : List AbilitySlot
  sprites : Sprites
  deriving DecidableEq

/-- The component's four `useState` fields (lines 54-57 of `page.tsx`). -/
structure ViewState where
  searchTerm : String
  pokemonList : List Pokemon
  isLoading : Bool
  error : Option String
  deriving DecidableEq

/-- The initial view state produced by the `useState` initializers on mount:
empty search box, empty result list, not loading, no error. -/
def initialViewState : ViewState :=
  { searchTerm := "", pokemonList := [], isLoading := false, error := none }

/-! ## Models of the JavaScript string primitives the component uses -/

/-- Model of JavaScript `String.prototype.toLowerCase` on the basic latin
range (all names the component sends are ASCII): lower-case every
character. -/
def jsToLower (s : String) : String :=
  String.mk (s.data.map Char.toLower)

/-- Model of JavaScript `String.prototype.trim` over the common whitespace
characters: drop whitespace from both ends. -/
def jsTrim (s : String) : String :=
  String.mk (((s.data.dropWhile Char.isWhitespace).reverse.dropWhile
    Char.isWhitespace).reverse)

/-- Model of the source expression `name.replace('-', ' ')` (line 235 of
`page.tsx`).  JavaScript `replace` with a *string* pattern substitutes only
the FIRST occurrence, so only the first hyphen becomes a space. -/
def jsReplaceCharFirst (pat rep : Char) : List Char → List Char
  | [] => []
  | c :: cs => if c = pat then rep :: cs else c :: jsReplaceCharFirst pat rep cs

/-! ## Network interface of the two fetch routines -/

/-- The observable part of the response to `GET .../pokemon/{name}`:
`ok` is `response.ok`, and `body` is the parsed JSON creature record
(`none` when `response.json()` rejects or the shape is wrong). -/
structure NameResponse where
  ok : Bool
  body : Option Pokemon
  deriving DecidableEq

/-- One entry of the `data.pokemon` array of a type-membership response:
`{ pokemon: { url } }`, with `url` held in a `NamedRef`-like record. -/
structure UrlRef where
  url : String
  deriving DecidableEq

/-- A membership entry `{ pokemon: { url: string } }`. -/
structure TypeMemberEntry where
  pokemon : UrlRef
  deriving DecidableEq

/-- The observable part of the response to `GET .../type/{type}`: `ok` is
`response.ok`, `body` the parsed `data.pokemon` membership array (`none`
when parsing fails or the shape is wrong). -/
structure TypeResponse where
  ok : Bool
  body : Option (List TypeMemberEntry)
  deriving DecidableEq

/-- The user-facing message set by the name-lookup failure path
(line 68 of `page.tsx`). -/
def nameNotFoundMessage : String := "Pokemon not found. Please try another name."

/-- The user-facing message set by the type-lookup failure path
(line 89 of `page.tsx`). -/
def typeFailedMessage : String := "Failed to load Pokemon by type. Please try again."

/-! ## `fetchPokemonByName` (lines 59-73) -/

/-- Entry phase of `fetchPokemonByName`: `setIsLoading(true)` and
`setError(null)` (lines 61-62), before any request settles. -/
def fetchPokemonByNameStart (s : ViewState) : ViewState :=
  { s with isLoading := true, error := none }

/-- Settlement phase of `fetchPokemonByName` given the response: on
`response.ok` with a parsed body, `setPokemonList([data])`; otherwise the
`catch` block sets the error message and clears the list; the `finally`
block sets `isLoading` false on every path (lines 63-72). -/
def fetchPokemonByNameSettle (resp : NameResponse) (s : ViewState) : ViewState :=
  if resp.ok then
    match resp.body with
    | some data => { s with pokemonList := [data], isLoading := false }
    | none =>
      { s with error := some nameNotFoundMessage, pokemonList := [], isLoading := false }
  else
    { s with error := some nameNotFoundMessage, pokemonList := [], isLoading := false }

/-- The whole of `fetchPokemonByName name`: the URL interpolates
`name.toLowerCase()` (line 63), so the response consumed is the one for the
lower-cased name. -/
def fetchPokemonByName (api : String → NameResponse) (name : String)
    (s : ViewState) : ViewState :=
  fetchPokemonByNameSettle (api (jsToLower name)) (fetchPokemonByNameStart s)

/-! ## `fetchPokemonByType` (lines 75-94) -/

/-- Model of `Promise.all` over the per-member requests (lines 83-86): the
aggregate fulfills with the list of parsed records in request order iff
every member request fulfills, and rejects if any member rejects. -/
def awaitAll (fetchMember : String → Option Pokemon) :
    List String → Option (List Pokemon)
  | [] => some []
  | u :: us =>
    match fetchMember u, awaitAll fetchMember us with
    | some p, some ps => some (p :: ps)
    | _, _ => none

/-- Entry phase of `fetchPokemonByType`: `setIsLoading(true)` and
`setError(null)` (lines 77-78). -/
def fetchPokemonByTypeStart (s : ViewState) : ViewState :=
  { s with isLoading := true, error := none }

/-- Settlement phase of `fetchPokemonByType`: on a parsed `ok` membership
response, `data.pokemon.slice(0, 20).map(p => p.pokemon.url)` (line 82)
followed by `Promise.all` over the member fetches and
`setPokemonList(pokemonData)` (lines 83-87); any thrown error reaches the
`catch` block, which sets the failure message and clears the list
(lines 88-90); the `finally` block clears `isLoading` (lines 91-93). -/
def fetchPokemonByTypeSettle (resp : TypeResponse)
    (fetchMember : String → Option Pokemon) (s : ViewState) : ViewState :=
  if resp.ok then
    match resp.body with
    | some data =>
      let pokemonUrls := (data.take 20).map (fun p => p.pokemon.url)
      match awaitAll fetchMember pokemonUrls with
      | some pokemonData => { s with pokemonList := pokemonData, isLoading := false }
      | none =>
        { s with error := some typeFailedMessage, pokemonList := [], isLoading := false }
    | none =>
      { s with error := some typeFailedMessage, pokemonList := [], isLoading := false }
  else
    { s with error := some typeFailedMessage, pokemonList := [], isLoading := false }

/-- The whole of `fetchPokemonByType type`: the URL interpolates
`type.toLowerCase()` (line 79). -/
def fetchPokemonByType (api : String → TypeResponse)
    (fetchMember : String → Option Pokemon) (t : String)
    (s : ViewState) : ViewState :=
  fetchPokemonByTypeSettle (api (jsToLower t)) fetchMember (fetchPokemonByTypeStart s)

/-! ## `handleSearch` (lines 96-101) -/

/-- The argument `handleSearch` passes to `fetchPokemonByName`, when it
fetches at all: `if (searchTerm.trim()) { fetchPokemonByName(searchTerm) }`
(lines 98-100) — the trimmed string only gates the call; the argument is
the raw `searchTerm`. -/
def searchFetchArg (s : ViewState) : Option String :=
  if jsTrim s.searchTerm ≠ "" then some s.searchTerm else none

/-- The state transformation of a search submission (lines 96-101):
`e.preventDefault()` has no model-visible effect; when the trimmed term is
non-empty the name fetch runs on the raw `searchTerm`, otherwise nothing
happens. -/
def handleSearch (api : String → NameResponse) (s : ViewState) : ViewState :=
  if jsTrim s.searchTerm ≠ "" then fetchPokemonByName api s.searchTerm s else s

/-! ## Presentation transforms (lines 32-51, 184-185, 234-236) -/

/-- The static type-to-color table (lines 32-51), in source order. -/
def typeColors : List (String × String) :=
  [("fire", "bg-[#F08030]"),
   ("water", "bg-[#6890F0]"),
   ("grass", "bg-[#78C850]"),
   ("electric", "bg-[#F8D030]"),
   ("psychic", "bg-[#F85888]"),
   ("ice", "bg-[#98D8D8]"),
   ("dragon", "bg-[#7038F8]"),
   ("dark", "bg-[#705848]"),
   ("fairy", "bg-[#EE99AC]"),
   ("normal", "bg-[#A8A878]"),
   ("fighting", "bg-[#C03028]"),
   ("flying", "bg-[#A890F0]"),
   ("poison", "bg-[#A040A0]"),
   ("ground", "bg-[#E0C068]"),
   ("rock", "bg-[#B8A038]"),
   ("bug", "bg-[#A8B820]"),
   ("ghost", "bg-[#705898]"),
   ("steel", "bg-[#B8B8D0]")]

/-- Model of `typeColors[primaryType] || 'bg-gray-500'` (line 185): table
lookup with the neutral fallback.  Every table value is a non-empty string,
so JavaScript's falsy-`||` coincides with the absent-key fallback. -/
def typeColorOf (t : String) : String :=
  match typeColors.lookup t with
  | some color => color
  | none => "bg-gray-500"

/-- Model of `pokemon.types[0].type.name` (line 184); `none` when `types`
is empty (where the JavaScript would throw). -/
def primaryType (p : Pokemon) : Option String :=
  p.types.head?.map (fun slot => slot.type.name)

/-- The card header color computed by lines 184-185 for a rendered
creature. -/
def cardHeaderColor (p : Pokemon) : Option String :=
  (primaryType p).map typeColorOf

/-- The display name of one ability:
`a.ability.name.replace('-', ' ')` (line 235). -/
def abilityDisplayName (a : AbilitySlot) : String :=
  String.mk (jsReplaceCharFirst '-' ' ' a.ability.name.data)

/-- The abilities line of a card (lines 234-236):
`pokemon.abilities.map(a => a.ability.name.replace('-', ' ')).join(', ')`. -/
def abilitiesDisplay (p : Pokemon) : String :=
  String.intercalate ", " (p.abilities.map (fun a => abilityDisplayName a))

/-! ## Concrete fixtures used by witnesses and counterexamples -/

/-- A concrete creature record shaped like the API's `charizard` response. -/
def samplePokemon : Pokemon :=
  { id := 6
    name := "charizard"
    types := [⟨⟨"fire"⟩⟩, ⟨⟨"flying"⟩⟩]
    height := 17
    weight := 905
    abilities := [⟨⟨"blaze"⟩⟩, ⟨⟨"solar-power"⟩⟩]
    sprites :=
      { other := { official_artwork := { front_default := "official-artwork/6.png" } }
        front_default := "6.png" } }

/-- A concrete creature record whose single ability name contains two
hyphens (the real ability `as-one-glastrier` of `calyrex-ice`). -/
def dualHyphenPokemon : Pokemon :=
  { id := 10193
    name := "calyrex-ice"
    types := [⟨⟨"psychic"⟩⟩, ⟨⟨"ice"⟩⟩]
    height := 24
    weight := 8091
    abilities := [⟨⟨"as-one-glastrier"⟩⟩]
    sprites :=
      { other := { official_artwork := { front_default := "official-artwork/10193.png" } }
        front_default := "10193.png" } }

/-- A view state whose search box holds a name with a leading space. -/
def paddedSearchState : ViewState :=
  { searchTerm := " mew", pokemonList := [], isLoading := false, error := none }

/-- A view state whose search box holds only whitespace, with earlier
results and an earlier error still present. -/
def whitespaceSearchState : ViewState :=
  { searchTerm := "   ", pokemonList := [samplePokemon], isLoading := false,
    error := some "stale" }

/-- A name-lookup server that always fails. -/
def failingNameApi : String → NameResponse :=
  fun _ => { ok := false, body := none }

/-- A name-lookup server that answers every request with `samplePokemon`. -/
def charizardApi : String → NameResponse :=
  fun _ => { ok := true, body := some samplePokemon }

/-- A type-lookup server whose membership list is empty. -/
def emptyTypeApi : String → TypeResponse :=
  fun _ => { ok := true, body := some [] }

/-- A type-lookup server whose membership list has two entries. -/
def twoMemberTypeApi : String → TypeResponse :=
  fun _ => { ok := true, body := some [⟨⟨"url-a"⟩⟩, ⟨⟨"url-b"⟩⟩] }

/-- A per-member fetch that rejects every request. -/
def rejectingMemberApi : String → Option Pokemon :=
  fun _ => none

/-- A per-member fetch that fulfills `url-a` but rejects `url-b`. -/
def halfFailingMemberApi : String → Option Pokemon :=
  fun u => if u = "url-a" then some samplePokemon else none

/-- A per-member fetch that fulfills every request. -/
def totalMemberApi : String → Option Pokemon :=
  fun u => if u = "url-a" then some samplePokemon else some dualHyphenPokemon

/-! ## Helper lemmas -/

/-- `Char.toLower` is idempotent: lower-casing moves the basic latin
capitals into `97..122`, outside the capitals range. -/
lemma charToLower_idem (c : Char) : c.toLower.toLower = c.toLower := by
  unfold Char.toLower
  by_cases h : c.toNat ≥ 65 ∧ c.toNat ≤ 90
  · rw [if_pos h]
    have h2 : (Char.ofNat (c.toNat + 32)).toNat = c.toNat + 32 := by
      rw [Char.ofNat, dif_pos (Or.inl (by omega : c.toNat + 32 < 55296))]
      rfl
    rw [if_neg]
    rw [h2]
    omega
  · rw [if_neg h, if_neg h]

/-- The lower-casing model is idempotent. -/
lemma jsToLower_idem (s : String) : jsToLower (jsToLower s) = jsToLower s := by
  unfold jsToLower
  refine congrArg String.mk ?_
  show (s.data.map Char.toLower).map Char.toLower = s.data.map Char.toLower
  rw [List.map_map]
  exact List.map_congr_left (fun c _ => charToLower_idem c)

/-- `Promise.all` rejects as soon as one member request rejects. -/
lemma awaitAll_none_of_mem {f : String → Option Pokemon} {us : List String}
    {u : String} (hu : u ∈ us) (hf : f u = none) : awaitAll f us = none := by
  induction us with
  | nil => cases hu
  | cons v vs ih =>
    rcases List.mem_cons.mp hu with h | h
    · subst h
      simp [awaitAll, hf]
    · rw [awaitAll, ih h]
      cases f v <;> rfl

/-- When every member request fulfills, `Promise.all` fulfills with the
responses in request order. -/
lemma awaitAll_some {f : String → Option Pokemon} {us : List String}
    (h : ∀ u ∈ us, (f u).isSome) :
    ∃ ps, awaitAll f us = some ps ∧
      List.Forall₂ (fun u p => f u = some p) us ps := by
  induction us with
  | nil => exact ⟨[], rfl, List.Forall₂.nil⟩
  | cons v vs ih =>
    obtain ⟨p, hp⟩ := Option.isSome_iff_exists.mp (h v (List.mem_cons_self v vs))
    obtain ⟨ps, hps, hall⟩ := ih (fun u hu => h u (List.mem_cons_of_mem _ hu))
    exact ⟨p :: ps, by rw [awaitAll, hp, hps], List.Forall₂.cons hp hall⟩

/-- A fulfilled `Promise.all` over a non-empty request list yields a
non-empty response list. -/
lemma awaitAll_cons_ne_nil {f : String → Option Pokemon} {u : String}
    {us : List String} {ps : List Pokemon}
    (h : awaitAll f (u :: us) = some ps) : ps ≠ [] := by
  cases hfu : f u <;> cases har : awaitAll f us <;>
    rw [awaitAll, hfu, har] at h <;> simp at h
  rw [← h]
  simp

/-- The name-lookup settlement always clears `isLoading`. -/
lemma fetchPokemonByNameSettle_isLoading (resp : NameResponse) (s : ViewState) :
    (fetchPokemonByNameSettle resp s).isLoading = false := by
  unfold fetchPokemonByNameSettle
  split
  · split <;> rfl
  · rfl

/-- The type-lookup settlement always clears `isLoading`. -/
lemma fetchPokemonByTypeSettle_isLoading (resp : TypeResponse)
    (fetchMember : String → Option Pokemon) (s : ViewState) :
    (fetchPokemonByTypeSettle resp fetchMember s).isLoading = false := by
  unfold fetchPokemonByTypeSettle
  split
  · split
    · dsimp only
      split <;> rfl
    · rfl
  · rfl

/-- Outcome of the name-lookup settlement on the failure path (non-`ok`
status or failed parse). -/
lemma nameSettle_fail (resp : NameResponse) (s : ViewState)
    (h : resp.ok = false ∨ resp.body = none) :
    fetchPokemonByNameSettle resp s =
      { s with error := some nameNotFoundMessage, pokemonList := [], isLoading := false } := by
  unfold fetchPokemonByNameSettle
  rcases h with h | h
  · rw [if_neg (by simp [h])]
  · by_cases hok : resp.ok
    · rw [if_pos hok, h]
    · rw [if_neg hok]

/-- Outcome of the name-lookup settlement on the success path. -/
lemma nameSettle_ok (resp : NameResponse) (s : ViewState) (data : Pokemon)
    (hok : resp.ok = true) (hbody : resp.body = some data) :
    fetchPokemonByNameSettle resp s =
      { s with pokemonList := [data], isLoading := false } := by
  unfold fetchPokemonByNameSettle
  rw [if_pos hok, hbody]

/-- Outcome of the type-lookup settlement when the membership request has a
non-`ok` status. -/
lemma typeSettle_not_ok (resp : TypeResponse) (fetchMember : String → Option Pokemon)
    (s : ViewState) (h : resp.ok = false) :
    fetchPokemonByTypeSettle resp fetchMember s =
      { s with error := some typeFailedMessage, pokemonList := [], isLoading := false } := by
  unfold fetchPokemonByTypeSettle
  rw [if_neg (by simp [h])]

/-- Outcome of the type-lookup settlement when the membership body fails to
parse. -/
lemma typeSettle_parse_fail (resp : TypeResponse) (fetchMember : String → Option Pokemon)
    (s : ViewState) (hok : resp.ok = true) (hbody : resp.body = none) :
    fetchPokemonByTypeSettle resp fetchMember s =
      { s with error := some typeFailedMessage, pokemonList := [], isLoading := false } := by
  unfold fetchPokemonByTypeSettle
  rw [if_pos hok, hbody]

/-- Outcome of the type-lookup settlement when the membership parses and the
member batch fulfills. -/
lemma typeSettle_member_ok (resp : TypeResponse) (fetchMember : String → Option Pokemon)
    (s : ViewState) (data : List TypeMemberEntry) (ps : List Pokemon)
    (hok : resp.ok = true) (hbody : resp.body = some data)
    (hawait : awaitAll fetchMember ((data.take 20).map (fun p => p.pokemon.url)) = some ps) :
    fetchPokemonByTypeSettle resp fetchMember s =
      { s with pokemonList := ps, isLoading := false } := by
  unfold fetchPokemonByTypeSettle
  rw [if_pos hok, hbody]
  dsimp only
  rw [hawait]

/-- Outcome of the type-lookup settlement when the membership parses but the
member batch rejects. -/
lemma typeSettle_member_fail (resp : TypeResponse) (fetchMember : String → Option Pokemon)
    (s : ViewState) (data : List TypeMemberEntry)
    (hok : resp.ok = true) (hbody : resp.body = some data)
    (hawait : awaitAll fetchMember ((data.take 20).map (fun p => p.pokemon.url)) = none) :
    fetchPokemonByTypeSettle resp fetchMember s =
      { s with error := some typeFailedMessage, pokemonList := [], isLoading := false } := by
  unfold fetchPokemonByTypeSettle
  rw [if_pos hok, hbody]
  dsimp only
  rw [hawait]

/-! ## Spec-side definitions for claim C1 -/

/-- Spec-side reading of claim C1: every hyphen of each ability name
replaced by a space, the names joined by ", " in source order. -/
def abilitiesDisplayClaim (p : Pokemon) : String :=
  String.intercalate ", "
    (p.abilities.map (fun a =>
      String.mk (a.ability.name.data.map (fun c => if c = '-' then ' ' else c))))

/-- Spec-side description of what line 235 actually computes on one name:
scan to the first hyphen; if there is one, replace exactly it by a space and
keep the remainder (later hyphens included) unchanged. -/
def replaceFirstHyphen (l : List Char) : List Char :=
  match l.dropWhile (fun c => c != '-') with
  | [] => l
  | _ :: suf => l.takeWhile (fun c => c != '-') ++ ' ' :: suf

/-- The source's first-occurrence replace coincides with the scan-to-first-
hyphen description. -/
lemma jsReplaceCharFirst_eq_replaceFirstHyphen (l : List Char) :
    jsReplaceCharFirst '-' ' ' l = replaceFirstHyphen l := by
  induction l with
  | nil => rfl
  | cons c cs ih =>
    by_cases hc : c = '-'
    · subst hc
      rfl
    · have hb : (c != '-') = true := by simp [hc]
      rw [jsReplaceCharFirst, if_neg hc, ih]
      unfold replaceFirstHyphen
      rw [List.dropWhile_cons, if_pos hb, List.takeWhile_cons, if_pos hb]
      cases hd : cs.dropWhile (fun x => x != '-') with
      | nil => rfl
      | cons d suf => simp

/-! ## Claim theorems -/

/-- Claim C1, counterexample: for a creature whose ability name holds two
hyphens (`as-one-glastrier`), the rendered abilities string replaces only
the first hyphen, so it differs from the claim's every-hyphen reading. -/
theorem C1_counterexample :
    abilitiesDisplay dualHyphenPokemon = "as one-glastrier" ∧
    abilitiesDisplayClaim dualHyphenPokemon = "as one glastrier" ∧
    abilitiesDisplay dualHyphenPokemon ≠ abilitiesDisplayClaim dualHyphenPokemon :=
  ⟨by decide, by decide, by decide⟩

/-- Claim C1 (amended): for every Creature rendered, the displayed abilities
string equals the creature's ability names each with only its first hyphen
(if any) replaced by a space — later hyphens are kept — joined by ", " in
source order. -/
theorem C1_abilities_display_first_hyphen (p : Pokemon) :
    abilitiesDisplay p =
      String.intercalate ", "
        (p.abilities.map (fun a => String.mk (replaceFirstHyphen a.ability.name.data))) := by
  unfold abilitiesDisplay abilityDisplayName
  simp only [jsReplaceCharFirst_eq_replaceFirstHyphen]

/-- Claim C2, counterexample: with search term `" mew"` the trimmed term is
non-empty, yet the argument handed to the name fetch is the raw `" mew"`,
not the trimmed `"mew"`. -/
theorem C2_counterexample :
    jsTrim paddedSearchState.searchTerm ≠ "" ∧
    searchFetchArg paddedSearchState = some " mew" ∧
    searchFetchArg paddedSearchState ≠ some (jsTrim paddedSearchState.searchTerm) :=
  ⟨by decide, by decide, by decide⟩

/-- Claim C2 (amended): for every search submission whose input trims to a
non-empty string, the handler uses the trimmed input only to decide whether
to fetch; the name actually passed to the name fetch is the raw, untrimmed
input. -/
theorem C2_search_passes_raw_term (api : String → NameResponse) (s : ViewState)
    (h : jsTrim s.searchTerm ≠ "") :
    searchFetchArg s = some s.searchTerm ∧
    handleSearch api s = fetchPokemonByName api s.searchTerm s := by
  constructor
  · unfold searchFetchArg
    rw [if_pos h]
  · unfold handleSearch
    rw [if_pos h]

/-- Witness for the amended claim C2 at the concrete state whose search box
holds `" mew"`. -/
theorem C2_witness :
    jsTrim paddedSearchState.searchTerm ≠ "" ∧
    (searchFetchArg paddedSearchState = some paddedSearchState.searchTerm ∧
     handleSearch failingNameApi paddedSearchState =
       fetchPokemonByName failingNameApi paddedSearchState.searchTerm paddedSearchState) :=
  ⟨by decide, C2_search_passes_raw_term failingNameApi paddedSearchState (by decide)⟩

/-- Exactly one of the two completion outcomes of the spec's invariant:
a non-empty result set with no error, or an empty result set with an
error. -/
def exactlyOneOutcome (s : ViewState) : Prop :=
  (s.pokemonList ≠ [] ∧ s.error = none) ∨ (s.pokemonList = [] ∧ s.error ≠ none)

/-- Claim C3, counterexample: a type lookup whose membership list is empty
completes with an empty result set AND a null error, so the dichotomy fails
for it. -/
theorem C3_counterexample :
    (fetchPokemonByType emptyTypeApi rejectingMemberApi "bird" initialViewState).pokemonList
        = [] ∧
    (fetchPokemonByType emptyTypeApi rejectingMemberApi "bird" initialViewState).error
        = none :=
  ⟨rfl, rfl⟩

/-- Claim C3 (amended): every completed name fetch satisfies the
dichotomy (exactly one of result set non-empty, error non-null), and every
completed type fetch satisfies it except in the single case of a successful
membership response whose list is empty, which finishes with an empty
result set and a null error. -/
theorem C3_settled_outcome_dichotomy (nameApi : String → NameResponse)
    (typeApi : String → TypeResponse) (fetchMember : String → Option Pokemon)
    (name t : String) (s₁ s₂ : ViewState) :
    exactlyOneOutcome (fetchPokemonByName nameApi name s₁) ∧
    (exactlyOneOutcome (fetchPokemonByType typeApi fetchMember t s₂) ∨
      ((typeApi (jsToLower t)).ok = true ∧ (typeApi (jsToLower t)).body = some [] ∧
       (fetchPokemonByType typeApi fetchMember t s₂).pokemonList = [] ∧
       (fetchPokemonByType typeApi fetchMember t s₂).error = none)) := by
  constructor
  · by_cases hok : (nameApi (jsToLower name)).ok
    · cases hbody : (nameApi (jsToLower name)).body with
      | none =>
        right
        rw [fetchPokemonByName, nameSettle_fail _ _ (Or.inr hbody)]
        exact ⟨rfl, by simp⟩
      | some data =>
        left
        rw [fetchPokemonByName, nameSettle_ok _ _ data hok hbody]
        exact ⟨by simp, rfl⟩
    · right
      rw [fetchPokemonByName,
        nameSettle_fail _ _ (Or.inl (Bool.not_eq_true _ ▸ hok))]
      exact ⟨rfl, by simp⟩
  · by_cases hok : (typeApi (jsToLower t)).ok
    · cases hbody : (typeApi (jsToLower t)).body with
      | none =>
        left
        right
        rw [fetchPokemonByType, typeSettle_parse_fail _ _ _ hok hbody]
        exact ⟨rfl, by simp⟩
      | some data =>
        cases data with
        | nil =>
          right
          refine ⟨hok, rfl, ?_, ?_⟩
          · rw [fetchPokemonByType, typeSettle_member_ok _ _ _ [] [] hok hbody rfl]
          · rw [fetchPokemonByType, typeSettle_member_ok _ _ _ [] [] hok hbody rfl]
            rfl
        | cons e es =>
          left
          cases hawait : awaitAll fetchMember
              (((e :: es).take 20).map (fun p => p.pokemon.url)) with
          | none =>
            right
            rw [fetchPokemonByType, typeSettle_member_fail _ _ _ _ hok hbody hawait]
            exact ⟨rfl, by simp⟩
          | some ps =>
            left
            rw [fetchPokemonByType, typeSettle_member_ok _ _ _ _ _ hok hbody hawait]
            refine ⟨?_, rfl⟩
            have hawait' : awaitAll fetchMember
                (e.pokemon.url :: (es.take 19).map (fun p => p.pokemon.url)) = some ps := hawait
            exact awaitAll_cons_ne_nil hawait'
    · left
      right
      rw [fetchPokemonByType, typeSettle_not_ok _ _ _ (Bool.not_eq_true _ ▸ hok)]
      exact ⟨rfl, by simp⟩

/-- Claim C4: when the membership request succeeds but some member request
of the first twenty rejects, the whole batch fails: the error becomes the
type-failure message and the result set becomes empty. -/
theorem C4_member_rejection_fails_batch (typeApi : String → TypeResponse)
    (fetchMember : String → Option Pokemon) (t : String) (s : ViewState)
    (entries : List TypeMemberEntry)
    (hok : (typeApi (jsToLower t)).ok = true)
    (hbody : (typeApi (jsToLower t)).body = some entries)
    (hfail : ∃ entry ∈ entries.take 20, fetchMember entry.pokemon.url = none) :
    (fetchPokemonByType typeApi fetchMember t s).error =
        some "Failed to load Pokemon by type. Please try again." ∧
    (fetchPokemonByType typeApi fetchMember t s).pokemonList = [] := by
  obtain ⟨entry, hmem, hnone⟩ := hfail
  have hawait : awaitAll fetchMember ((entries.take 20).map (fun p => p.pokemon.url)) = none :=
    awaitAll_none_of_mem (List.mem_map_of_mem _ hmem) hnone
  rw [fetchPokemonByType, typeSettle_member_fail _ _ _ _ hok hbody hawait]
  exact ⟨rfl, rfl⟩

/-- Witness for claim C4: a two-member type whose second member request
rejects loses the whole batch. -/
theorem C4_witness :
    (twoMemberTypeApi (jsToLower "water")).ok = true ∧
    (twoMemberTypeApi (jsToLower "water")).body = some [⟨⟨"url-a"⟩⟩, ⟨⟨"url-b"⟩⟩] ∧
    (∃ entry ∈ ([⟨⟨"url-a"⟩⟩, ⟨⟨"url-b"⟩⟩] : List TypeMemberEntry).take 20,
        halfFailingMemberApi entry.pokemon.url = none) ∧
    ((fetchPokemonByType twoMemberTypeApi halfFailingMemberApi "water"
          initialViewState).error =
        some "Failed to load Pokemon by type. Please try again." ∧
     (fetchPokemonByType twoMemberTypeApi halfFailingMemberApi "water"
          initialViewState).pokemonList = []) :=
  ⟨rfl, rfl, ⟨⟨⟨"url-b"⟩⟩, by decide, by decide⟩,
    C4_member_rejection_fails_batch twoMemberTypeApi halfFailingMemberApi "water"
      initialViewState [⟨⟨"url-a"⟩⟩, ⟨⟨"url-b"⟩⟩] rfl rfl
      ⟨⟨⟨"url-b"⟩⟩, by decide, by decide⟩⟩

/-- Claim C5: a fully successful type lookup over a membership list with
`entries.length` members yields exactly `min 20 entries.length` creatures,
and the i-th creature is the parsed response of the i-th of the first
twenty membership entries (order preserved). -/
theorem C5_success_size_and_order (typeApi : String → TypeResponse)
    (fetchMember : String → Option Pokemon) (t : String) (s : ViewState)
    (entries : List TypeMemberEntry)
    (hok : (typeApi (jsToLower t)).ok = true)
    (hbody : (typeApi (jsToLower t)).body = some entries)
    (hall : ∀ entry ∈ entries.take 20, (fetchMember entry.pokemon.url).isSome) :
    (fetchPokemonByType typeApi fetchMember t s).pokemonList.length
        = min 20 entries.length ∧
    List.Forall₂ (fun (entry : TypeMemberEntry) (p : Pokemon) =>
        fetchMember entry.pokemon.url = some p)
      (entries.take 20) (fetchPokemonByType typeApi fetchMember t s).pokemonList := by
  have hall' : ∀ u ∈ (entries.take 20).map (fun p => p.pokemon.url),
      (fetchMember u).isSome := by
    intro u hu
    obtain ⟨entry, hmem, rfl⟩ := List.mem_map.mp hu
    exact hall entry hmem
  obtain ⟨ps, hps, hforall⟩ := awaitAll_some hall'
  rw [fetchPokemonByType, typeSettle_member_ok _ _ _ _ _ hok hbody hps]
  constructor
  · show ps.length = min 20 entries.length
    have h1 : ((entries.take 20).map (fun p => p.pokemon.url)).length = ps.length :=
      List.Forall₂.length_eq hforall
    simpa using h1.symm
  · show List.Forall₂ _ (entries.take 20) ps
    exact List.forall₂_map_left_iff.mp hforall

/-- Witness for claim C5: a two-member type whose member requests both
fulfill yields both creatures in membership order. -/
theorem C5_witness :
    (twoMemberTypeApi (jsToLower "water")).ok = true ∧
    (twoMemberTypeApi (jsToLower "water")).body = some [⟨⟨"url-a"⟩⟩, ⟨⟨"url-b"⟩⟩] ∧
    (∀ entry ∈ ([⟨⟨"url-a"⟩⟩, ⟨⟨"url-b"⟩⟩] : List TypeMemberEntry).take 20,
        (totalMemberApi entry.pokemon.url).isSome) ∧
    ((fetchPokemonByType twoMemberTypeApi totalMemberApi "water"
          initialViewState).pokemonList.length
        = min 20 ([⟨⟨"url-a"⟩⟩, ⟨⟨"url-b"⟩⟩] : List TypeMemberEntry).length ∧
     List.Forall₂ (fun (entry : TypeMemberEntry) (p : Pokemon) =>
        totalMemberApi entry.pokemon.url = some p)
      (([⟨⟨"url-a"⟩⟩, ⟨⟨"url-b"⟩⟩] : List TypeMemberEntry).take 20)
      (fetchPokemonByType twoMemberTypeApi totalMemberApi "water"
          initialViewState).pokemonList) :=
  ⟨rfl, rfl, by decide,
    C5_success_size_and_order twoMemberTypeApi totalMemberApi "water" initialViewState
      [⟨⟨"url-a"⟩⟩, ⟨⟨"url-b"⟩⟩] rfl rfl (by decide)⟩

/-- Claim C6: both fetch routines set `isLoading` true and clear the error
at entry, and set `isLoading` back to false at settlement on every path
(success and failure alike). -/
theorem C6_loading_and_error_toggle (nameApi : String → NameResponse)
    (typeApi : String → TypeResponse) (fetchMember : String → Option Pokemon)
    (name t : String) (s₁ s₂ : ViewState) :
    (fetchPokemonByNameStart s₁).isLoading = true ∧
    (fetchPokemonByNameStart s₁).error = none ∧
    (fetchPokemonByTypeStart s₂).isLoading = true ∧
    (fetchPokemonByTypeStart s₂).error = none ∧
    (fetchPokemonByName nameApi name s₁).isLoading = false ∧
    (fetchPokemonByType typeApi fetchMember t s₂).isLoading = false :=
  ⟨rfl, rfl, rfl, rfl,
    fetchPokemonByNameSettle_isLoading _ _,
    fetchPokemonByTypeSettle_isLoading _ _ _⟩

/-- Claim C7: a name lookup with a non-`ok` status or an unparsable body
sets the not-found message and clears the result set; a successful lookup
whose response carries the record of the requested (lower-cased) name
replaces the result set with exactly that one creature, whose name equals
the requested name case-insensitively. -/
theorem C7_name_lookup_outcomes (nameApi : String → NameResponse) (name : String)
    (s : ViewState) :
    ((nameApi (jsToLower name)).ok = false ∨ (nameApi (jsToLower name)).body = none →
      (fetchPokemonByName nameApi name s).error =
          some "Pokemon not found. Please try another name." ∧
      (fetchPokemonByName nameApi name s).pokemonList = []) ∧
    (∀ c : Pokemon, (nameApi (jsToLower name)).ok = true →
      (nameApi (jsToLower name)).body = some c →
      c.name = jsToLower name →
      (fetchPokemonByName nameApi name s).pokemonList = [c] ∧
      jsToLower c.name = jsToLower name) := by
  constructor
  · intro h
    rw [fetchPokemonByName, nameSettle_fail _ _ h]
    exact ⟨rfl, rfl⟩
  · intro c hok hbody hname
    rw [fetchPokemonByName, nameSettle_ok _ _ c hok hbody]
    exact ⟨rfl, by rw [hname, jsToLower_idem]⟩

/-- Witness for claim C7: a successful lookup of `"Charizard"` puts exactly
the charizard record in the result set. -/
theorem C7_witness :
    ((charizardApi (jsToLower "Charizard")).ok = true ∧
     (charizardApi (jsToLower "Charizard")).body = some samplePokemon ∧
     samplePokemon.name = jsToLower "Charizard") ∧
    ((fetchPokemonByName charizardApi "Charizard" initialViewState).pokemonList
        = [samplePokemon] ∧
     jsToLower samplePokemon.name = jsToLower "Charizard") :=
  ⟨⟨rfl, rfl, by decide⟩,
    (C7_name_lookup_outcomes charizardApi "Charizard" initialViewState).2
      samplePokemon rfl rfl (by decide)⟩

/-- Claim C8: a search submission whose input trims to the empty string
issues no fetch and returns the view state unchanged in every field. -/
theorem C8_whitespace_search_is_noop (api : String → NameResponse) (s : ViewState)
    (h : jsTrim s.searchTerm = "") :
    searchFetchArg s = none ∧ handleSearch api s = s := by
  constructor
  · unfold searchFetchArg
    rw [if_neg (by simp [h])]
  · unfold handleSearch
    rw [if_neg (by simp [h])]

/-- Witness for claim C8 at a concrete whitespace-only search box with
earlier results and an earlier error in state. -/
theorem C8_witness :
    jsTrim whitespaceSearchState.searchTerm = "" ∧
    (searchFetchArg whitespaceSearchState = none ∧
     handleSearch failingNameApi whitespaceSearchState = whitespaceSearchState) :=
  ⟨by decide, C8_whitespace_search_is_noop failingNameApi whitespaceSearchState (by decide)⟩

/-- Claim C9: for a rendered creature with a non-empty types list, the card
header color is the static table's entry for the primary type when that
type is a table key, and the neutral `bg-gray-500` otherwise; the table has
exactly 18 keys. -/
theorem C9_card_header_color (p : Pokemon) (slot : TypeSlot) (rest : List TypeSlot)
    (h : p.types = slot :: rest) :
    ((∀ color, typeColors.lookup slot.type.name = some color →
        cardHeaderColor p = some color) ∧
     (typeColors.lookup slot.type.name = none →
        cardHeaderColor p = some "bg-gray-500")) ∧
    typeColors.length = 18 := by
  have hp : primaryType p = some slot.type.name := by
    unfold primaryType
    rw [h]
    rfl
  refine ⟨⟨?_, ?_⟩, rfl⟩
  · intro color hc
    unfold cardHeaderColor
    rw [hp]
    simp [typeColorOf, hc]
  · intro hc
    unfold cardHeaderColor
    rw [hp]
    simp [typeColorOf, hc]

/-- Witness for claim C9: charizard's primary type `fire` is a table key and
resolves to the fire color. -/
theorem C9_witness :
    samplePokemon.types = (⟨⟨"fire"⟩⟩ : TypeSlot) :: [⟨⟨"flying"⟩⟩] ∧
    typeColors.lookup "fire" = some "bg-[#F08030]" ∧
    cardHeaderColor samplePokemon = some "bg-[#F08030]" :=
  ⟨rfl, by decide,
    ((C9_card_header_color samplePokemon ⟨⟨"fire"⟩⟩ [⟨⟨"flying"⟩⟩] rfl).1).1
      "bg-[#F08030]" (by decide)⟩

/-- Claim C10: the entry phase of either fetch routine changes only
`isLoading` and `error`; the result list and the search term are left
exactly as they were. -/
theorem C10_start_preserves_results_and_term (s₁ s₂ : ViewState) :
    (fetchPokemonByNameStart s₁).pokemonList = s₁.pokemonList ∧
    (fetchPokemonByNameStart s₁).searchTerm = s₁.searchTerm ∧
    (fetchPokemonByTypeStart s₂).pokemonList = s₂.pokemonList ∧
    (fetchPokemonByTypeStart s₂).searchTerm = s₂.searchTerm :=
  ⟨rfl, rfl, rfl, rfl⟩

end PokemonSeeker
